import Mathlib

/-
Verification of the two AWS facts-gathering Ansible modules:
`lib/ansible/modules/cloud/amazon/ec2_asg_facts.py` and
`lib/ansible/modules/cloud/amazon/ec2_group_facts.py`.

Each module is embedded as a pure function from an invocation record
(the module parameters together with the behaviour of the AWS SDK on
this invocation) to the trace of SDK query calls it issues and the
final observable outcome (exit_json, fail_json, or an uncaught
exception).
-/

namespace AnsibleAws

/-- JSON-like values, the shape of the data the modules pass around. -/
inductive JsonVal where
  | nullV
  | boolV (b : Bool)
  | intV (n : Int)
  | strV (s : String)
  | listV (xs : List JsonVal)
  | dictV (entries : List (String × JsonVal))

/-- A value is a scalar when it is neither a list nor a dictionary. -/
def JsonVal.isScalar : JsonVal → Bool
  | .listV _ => false
  | .dictV _ => false
  | _ => true

/-- A record emitted by a module: a dictionary of string keys to values. -/
abbrev Record := List (String × JsonVal)

/-- Modelled from the spec: the helper `_camel_to_snake` of
`ansible.module_utils.ec2` is part of the repository but not under the
sources given here; following the spec's "reshapes the returned records
into a uniform key-naming convention", a CamelCase key is renamed to
snake_case by inserting an underscore before each inner capital letter
and lowering the case. Helper on the character list of the key. -/
def camelToSnakeAux : List Char → List Char
  | [] => []
  | c :: cs =>
      (if c.isUpper then ['_', c.toLower] else [c]) ++ camelToSnakeAux cs

/-- Modelled from the spec: CamelCase to snake_case renaming of a key
(see `camelToSnakeAux`); the leading character is lowered without a
leading underscore. -/
def camel_to_snake (s : String) : String :=
  match s.toList with
  | [] => ""
  | c :: cs => String.mk (c.toLower :: camelToSnakeAux cs)

/-- Modelled from the spec: `camel_dict_to_snake_dict` of
`ansible.module_utils.ec2` is part of the repository but not under the
sources given here; per the spec's uniform key-naming reshaping, it
renames every key of the record to snake_case and leaves the values
unchanged. -/
def camel_dict_to_snake_dict (d : Record) : Record :=
  d.map (fun kv => (camel_to_snake kv.1, kv.2))

/-- The observable result of a module run: a successful exit carrying a
named list of records, a formatted failure (`fail_json`) carrying a
message and possibly extra key/value data, or an uncaught exception
escaping the module. -/
inductive Outcome where
  | exitJson (key : String) (records : List Record)
  | failJson (msg : String) (extra : Record)
  | crash (msg : String)

/-- An outcome that is not a successful exit. -/
def Outcome.isFailure : Outcome → Bool
  | .failJson _ _ => true
  | .crash _ => true
  | .exitJson _ _ => false

/- ------------------------------------------------------------------
   ec2_group_facts.py
   ------------------------------------------------------------------ -/

/-- The four optional string parameters of `ec2_group_facts`
(`name`, `group_id`, `description`, `vpc_id`); `none` models an
omitted parameter, `some s` a supplied string value. -/
structure GroupParams where
  name : Option String
  description : Option String
  vpc_id : Option String
  group_id : Option String

/-- Python truthiness of an optional string parameter: truthy exactly
when supplied and non-empty. -/
def truthyStr : Option String → Bool
  | none => false
  | some s => !s.isEmpty

/-- One conditional entry of the filter dictionary built by
`list_ec2_security_groups` (`if name: filter['group-name'] = name`
and the three analogous lines). -/
def filterEntry (key : String) : Option String → List (String × String)
  | none => []
  | some s => if s.isEmpty then [] else [(key, s)]

/-- The filter dictionary built by `list_ec2_security_groups`
(ec2_group_facts.py lines 130-139), in source order. -/
def buildGroupFilter (p : GroupParams) : List (String × String) :=
  filterEntry "group-name" p.name
    ++ filterEntry "description" p.description
    ++ filterEntry "vpc-id" p.vpc_id
    ++ filterEntry "group-id" p.group_id

/-- A boto3 filter element, a dictionary with a `Name` and a list of
`Values`. -/
structure Boto3Filter where
  Name : String
  Values : List String

/-- Modelled from the spec: `ansible_dict_to_boto3_filter_list` of
`ansible.module_utils.ec2` is part of the repository but not under the
sources given here; per the spec's "builds a filter structure from
user-supplied parameters", each dictionary entry `(k, v)` with a string
value becomes one boto3 filter with `Name` `k` and `Values` `[v]`. -/
def ansible_dict_to_boto3_filter_list (d : List (String × String)) :
    List Boto3Filter :=
  d.map (fun kv => { Name := kv.1, Values := [kv.2] })

/-- The filter list `ec2_group_facts` passes to
`describe_security_groups` (line 141 then 145). -/
def groupFilters (p : GroupParams) : List Boto3Filter :=
  ansible_dict_to_boto3_filter_list (buildGroupFilter p)

/-- A botocore `ClientError`: its message and its response dictionary. -/
structure ClientError where
  message : String
  response : Record

/-- The response of a successful `describe_security_groups` call: the
list of security-group records under the `SecurityGroups` key. -/
structure DescribeSecurityGroupsResult where
  SecurityGroups : List Record

/-- A query call issued by `ec2_group_facts` against the SDK client. -/
inductive GroupApiCall where
  | describeSecurityGroups (filters : List Boto3Filter)

/-- An invocation of `ec2_group_facts`: whether boto3 imported, the
region resolved from the connection parameters, the module parameters,
and the behaviour of `describe_security_groups` on this invocation
(raising a `ClientError` or returning a result). -/
structure GroupInvocation where
  hasBoto3 : Bool
  region : Option String
  params : GroupParams
  api : List Boto3Filter → Except ClientError DescribeSecurityGroupsResult

/-- The run of `ec2_group_facts` (`main` then
`list_ec2_security_groups`): the list of SDK query calls issued and the
observable outcome. Mirrors lines 169-179 and 123-153 of
ec2_group_facts.py. -/
def ec2_group_facts_run (inv : GroupInvocation) :
    List GroupApiCall × Outcome :=
  if inv.hasBoto3 = false then
    ([], Outcome.failJson "boto3 required for this module" [])
  else
    match inv.region with
    | none => ([], Outcome.failJson "region must be specified" [])
    | some _ =>
        match inv.api (groupFilters inv.params) with
        | Except.error e =>
            ([GroupApiCall.describeSecurityGroups (groupFilters inv.params)],
             Outcome.failJson e.message (camel_dict_to_snake_dict e.response))
        | Except.ok groups =>
            ([GroupApiCall.describeSecurityGroups (groupFilters inv.params)],
             Outcome.exitJson "security_groups"
               (groups.SecurityGroups.map camel_dict_to_snake_dict))

/- ------------------------------------------------------------------
   ec2_asg_facts.py
   ------------------------------------------------------------------ -/

/-- A boto autoscaling `Tag`, as used by `ec2_asg_facts`: its key and
value. -/
structure AsgTag where
  key : String
  value : String

/-- A boto autoscaling `Instance`, as used by `ec2_asg_facts`: only its
`instance_id` is read. -/
structure AsgInstance where
  instance_id : String

/-- A boto `AutoScalingGroup` as read by `ec2_asg_facts`: the thirteen
attributes copied into the result, plus `tags` (where `none` models an
absent attribute, matching `getattr(asg, "tags", None)`) and
`instances`. -/
structure AutoScalingGroup where
  name : String
  availability_zones : List String
  default_cooldown : Int
  desired_capacity : Int
  health_check_period : Int
  health_check_type : String
  launch_config_name : String
  load_balancers : List String
  max_size : Int
  min_size : Int
  placement_group : String
  vpc_zone_identifier : String
  termination_policies : List String
  tags : Option (List AsgTag)
  instances : List AsgInstance

/-- Python truthiness of `getattr(asg, "tags", None)`: truthy exactly
when the attribute is present and the list non-empty. -/
def tagsTruthy : Option (List AsgTag) → Bool
  | some (_ :: _) => true
  | _ => false

/-- The record `ec2_asg_facts` builds for one auto scaling group
(ec2_asg_facts.py lines 120-139): the thirteen base entries, then
`tags` when the tags attribute is truthy, then `instances` when the
instance list is non-empty. -/
def buildAsgRecord (asg : AutoScalingGroup) : Record :=
  let data : Record :=
    [("name", JsonVal.strV asg.name),
     ("availability_zones",
       JsonVal.listV (asg.availability_zones.map JsonVal.strV)),
     ("default_cooldown", JsonVal.intV asg.default_cooldown),
     ("desired_capacity", JsonVal.intV asg.desired_capacity),
     ("health_check_period", JsonVal.intV asg.health_check_period),
     ("health_check_type", JsonVal.strV asg.health_check_type),
     ("launch_config_name", JsonVal.strV asg.launch_config_name),
     ("load_balancers",
       JsonVal.listV (asg.load_balancers.map JsonVal.strV)),
     ("max_size", JsonVal.intV asg.max_size),
     ("min_size", JsonVal.intV asg.min_size),
     ("placement_group", JsonVal.strV asg.placement_group),
     ("vpc_zone_identifier", JsonVal.strV asg.vpc_zone_identifier),
     ("termination_policies",
       JsonVal.listV (asg.termination_policies.map JsonVal.strV))]
  let data :=
    if tagsTruthy asg.tags then
      data ++ [("tags",
        JsonVal.dictV ((asg.tags.getD []).map
          (fun t => (t.key, JsonVal.strV t.value))))]
    else data
  if asg.instances.isEmpty then data
  else data ++ [("instances",
    JsonVal.listV (asg.instances.map (fun i => JsonVal.strV i.instance_id)))]

/-- The normalisation of the `names` parameter
(`if not asg_names: asg_names = None`, lines 97-99): a falsy value
(omitted, or the empty list) becomes `none`. -/
def normalizeNames : Option (List String) → Option (List String)
  | none => none
  | some [] => none
  | some l => some l

/-- A query call issued by `ec2_asg_facts` against the SDK connection. -/
inductive AsgApiCall where
  | getAllGroups (names : Option (List String))

/-- An invocation of `ec2_asg_facts`: whether boto imported, the region
resolved from the connection parameters, the `names` parameter, the
behaviour of `connect_to_aws` (an error models a raised
`NoAuthHandlerFound` or `AnsibleAWSError`, carrying `str(e)`), and the
behaviour of `get_all_groups` on this invocation (an error models an
uncaught SDK exception, carrying its message). -/
structure AsgInvocation where
  hasBoto : Bool
  region : Option String
  namesParam : Option (List String)
  connectOk : Except String Unit
  api : Option (List String) → Except String (List AutoScalingGroup)

/-- The run of `ec2_asg_facts` (`main`, ec2_asg_facts.py lines 84-141):
the list of SDK query calls issued and the observable outcome. The
`get_all_groups` call at line 115 is not wrapped in a try block, so an
SDK error there escapes as an uncaught exception. -/
def ec2_asg_facts_run (inv : AsgInvocation) : List AsgApiCall × Outcome :=
  let asg_names := normalizeNames inv.namesParam
  if inv.hasBoto = false then
    ([], Outcome.failJson "boto required for this module" [])
  else
    match inv.region with
    | none => ([], Outcome.failJson "region must be specified" [])
    | some _ =>
        match inv.connectOk with
        | Except.error e => ([], Outcome.failJson e [])
        | Except.ok _ =>
            match inv.api asg_names with
            | Except.error e =>
                ([AsgApiCall.getAllGroups asg_names], Outcome.crash e)
            | Except.ok all_asgs =>
                ([AsgApiCall.getAllGroups asg_names],
                 Outcome.exitJson "asgs" (all_asgs.map buildAsgRecord))

/- ------------------------------------------------------------------
   Sample concrete inputs used by witnesses
   ------------------------------------------------------------------ -/

/-- A sample security-group record as returned by the API, CamelCase
keys. -/
def sampleGroupRecord : Record :=
  [("GroupName", JsonVal.strV "database_server"),
   ("GroupId", JsonVal.strV "sg-ded1b2a7"),
   ("IpPermissions", JsonVal.listV [])]

/-- A sample successful `describe_security_groups` result with one
group. -/
def sampleGroupResult : DescribeSecurityGroupsResult :=
  { SecurityGroups := [sampleGroupRecord] }

/-- A sample `ec2_group_facts` invocation whose API call succeeds with
one group. -/
def sampleGroupInvocation : GroupInvocation where
  hasBoto3 := true
  region := some "us-east-1"
  params := { name := none, description := none, vpc_id := none,
              group_id := none }
  api := fun _ => Except.ok sampleGroupResult

/-- A sample `ec2_group_facts` invocation whose API call succeeds but
matches zero groups. -/
def emptyGroupInvocation : GroupInvocation where
  hasBoto3 := true
  region := some "us-east-1"
  params := { name := some "database_server", description := none,
              vpc_id := none, group_id := none }
  api := fun _ => Except.ok { SecurityGroups := [] }

/-- An `ec2_group_facts` invocation with boto3 available but no region
configured. -/
def noRegionInvocation : GroupInvocation where
  hasBoto3 := true
  region := none
  params := { name := none, description := none, vpc_id := none,
              group_id := none }
  api := fun _ => Except.ok { SecurityGroups := [] }

/-- An `ec2_group_facts` invocation whose API call raises a
`ClientError`. -/
def errorGroupInvocation : GroupInvocation where
  hasBoto3 := true
  region := some "us-east-1"
  params := { name := none, description := none, vpc_id := none,
              group_id := none }
  api := fun _ => Except.error
    { message := "UnauthorizedOperation",
      response := [("Error", JsonVal.dictV [])] }

/-- An `ec2_asg_facts` invocation whose `get_all_groups` call raises. -/
def errorAsgInvocation : AsgInvocation where
  hasBoto := true
  region := some "us-east-1"
  namesParam := none
  connectOk := Except.ok ()
  api := fun _ => Except.error "BotoServerError: 403 Forbidden"

/-- A sample auto scaling group with tags and instances. -/
def sampleAsg : AutoScalingGroup where
  name := "app-servers"
  availability_zones := ["us-east-1a"]
  default_cooldown := 300
  desired_capacity := 2
  health_check_period := 300
  health_check_type := "EC2"
  launch_config_name := "app-lc"
  load_balancers := []
  max_size := 4
  min_size := 1
  placement_group := ""
  vpc_zone_identifier := "subnet-1"
  termination_policies := ["Default"]
  tags := some [{ key := "env", value := "prod" }]
  instances := [{ instance_id := "i-123" }]

/-- A sample `ec2_asg_facts` invocation with no `names` parameter whose
API call succeeds with one group. -/
def sampleAsgInvocation : AsgInvocation where
  hasBoto := true
  region := some "us-east-1"
  namesParam := none
  connectOk := Except.ok ()
  api := fun _ => Except.ok [sampleAsg]

/- ------------------------------------------------------------------
   Helper lemmas on the filter construction
   ------------------------------------------------------------------ -/

theorem countP_filterEntry_self (k : String) (v : Option String) :
    (filterEntry k v).countP (fun kv => kv.1 == k) =
      (if truthyStr v then 1 else 0) := by
  cases v with
  | none => rfl
  | some s =>
      by_cases h : s.isEmpty <;>
        simp [filterEntry, truthyStr, h, List.countP_cons]

theorem countP_filterEntry_other (k k2 : String) (v : Option String)
    (h : ¬k = k2) :
    (filterEntry k v).countP (fun kv => kv.1 == k2) = 0 := by
  cases v with
  | none => rfl
  | some s =>
      by_cases he : s.isEmpty <;>
        simp [filterEntry, he, List.countP_cons, h]

theorem lookup_filterEntry_self (k : String) (v : Option String) :
    (filterEntry k v).lookup k = (if truthyStr v then v else none) := by
  cases v with
  | none => rfl
  | some s =>
      by_cases h : s.isEmpty <;>
        simp [filterEntry, truthyStr, h, List.lookup]

theorem lookup_filterEntry_other (k k2 : String) (v : Option String)
    (h : ¬k = k2) :
    (filterEntry k v).lookup k2 = none := by
  cases v with
  | none => rfl
  | some s =>
      have hb : (k2 == k) = false := beq_eq_false_iff_ne.mpr (Ne.symm h)
      by_cases he : s.isEmpty <;>
        simp [filterEntry, he, List.lookup, hb]

theorem length_filterEntry (k : String) (v : Option String) :
    (filterEntry k v).length = (if truthyStr v then 1 else 0) := by
  cases v with
  | none => rfl
  | some s =>
      by_cases h : s.isEmpty <;> simp [filterEntry, truthyStr, h]

/-- The normalisation a falsy optional string parameter undergoes under
Python truthiness: a supplied empty string collapses to `none`. -/
def falsyOpt : Option String → Option String
  | none => none
  | some s => if s.isEmpty then none else some s

theorem filterEntry_falsyOpt (k : String) (v : Option String) :
    filterEntry k v = filterEntry k (falsyOpt v) := by
  cases v with
  | none => rfl
  | some s =>
      by_cases h : s.isEmpty <;> simp [filterEntry, falsyOpt, h]

/- ------------------------------------------------------------------
   Claim theorems
   ------------------------------------------------------------------ -/

/-- Claim C1: whenever the `describe_security_groups` call of
`ec2_group_facts` succeeds, the module exits successfully and the
emitted `security_groups` list is exactly the element-wise,
order-preserving image of the returned `SecurityGroups` records under
`camel_dict_to_snake_dict`. -/
theorem group_success_exits_with_snaked_records
    (inv : GroupInvocation) (res : DescribeSecurityGroupsResult)
    (hb : inv.hasBoto3 = true) (hr : inv.region.isSome = true)
    (hapi : inv.api (groupFilters inv.params) = Except.ok res) :
    (ec2_group_facts_run inv).2 =
      Outcome.exitJson "security_groups"
        (res.SecurityGroups.map camel_dict_to_snake_dict) := by
  obtain ⟨r, hreg⟩ := Option.isSome_iff_exists.mp hr
  simp [ec2_group_facts_run, hb, hreg, hapi]

/-- Witness for C1: on a concrete invocation returning one group, the
module exits with the snake-cased record. -/
theorem group_success_exits_with_snaked_records_witness :
    (ec2_group_facts_run sampleGroupInvocation).2 =
      Outcome.exitJson "security_groups"
        (sampleGroupResult.SecurityGroups.map camel_dict_to_snake_dict) :=
  group_success_exits_with_snaked_records sampleGroupInvocation
    sampleGroupResult rfl rfl rfl

/-- Claim C9: when the API call of `ec2_group_facts` succeeds but
matches zero security groups, the module exits successfully with the
empty `security_groups` list. -/
theorem empty_match_exits_empty_list
    (inv : GroupInvocation)
    (hb : inv.hasBoto3 = true) (hr : inv.region.isSome = true)
    (hapi : inv.api (groupFilters inv.params) =
      Except.ok { SecurityGroups := [] }) :
    (ec2_group_facts_run inv).2 = Outcome.exitJson "security_groups" [] := by
  obtain ⟨r, hreg⟩ := Option.isSome_iff_exists.mp hr
  simp [ec2_group_facts_run, hb, hreg, hapi]

/-- Witness for C9: a concrete invocation matching zero groups exits
with the empty list. -/
theorem empty_match_exits_empty_list_witness :
    (ec2_group_facts_run emptyGroupInvocation).2 =
      Outcome.exitJson "security_groups" [] :=
  empty_match_exits_empty_list emptyGroupInvocation rfl rfl rfl

/-- Claim C6: on every invocation, each module issues at most one SDK
query call (`describe_security_groups` for `ec2_group_facts`,
`get_all_groups` for `ec2_asg_facts`); a second call is never issued. -/
theorem at_most_one_api_call (ginv : GroupInvocation) (ainv : AsgInvocation) :
    (ec2_group_facts_run ginv).1.length ≤ 1 ∧
    (ec2_asg_facts_run ainv).1.length ≤ 1 := by
  constructor
  · cases hb : ginv.hasBoto3
    · simp [ec2_group_facts_run, hb]
    · cases hreg : ginv.region
      · simp [ec2_group_facts_run, hb, hreg]
      · cases hapi : ginv.api (groupFilters ginv.params) <;>
          simp [ec2_group_facts_run, hb, hreg, hapi]
  · cases hb : ainv.hasBoto
    · simp [ec2_asg_facts_run, hb]
    · cases hreg : ainv.region
      · simp [ec2_asg_facts_run, hb, hreg]
      · cases hc : ainv.connectOk
        · simp [ec2_asg_facts_run, hb, hreg, hc]
        · cases hapi : ainv.api (normalizeNames ainv.namesParam) <;>
            simp [ec2_asg_facts_run, hb, hreg, hc, hapi]

/-- Claim C3: every run of either module ends in exactly one of two
ways: a successful exit carrying the complete list of records built
from the API response, or a failure (a `fail_json` message or an
uncaught exception) carrying no record list. -/
theorem no_partial_results (ginv : GroupInvocation) (ainv : AsgInvocation) :
    ((∃ res, ginv.api (groupFilters ginv.params) = Except.ok res ∧
        (ec2_group_facts_run ginv).2 =
          Outcome.exitJson "security_groups"
            (res.SecurityGroups.map camel_dict_to_snake_dict)) ∨
      (ec2_group_facts_run ginv).2.isFailure = true) ∧
    ((∃ asgs, ainv.api (normalizeNames ainv.namesParam) = Except.ok asgs ∧
        (ec2_asg_facts_run ainv).2 =
          Outcome.exitJson "asgs" (asgs.map buildAsgRecord)) ∨
      (ec2_asg_facts_run ainv).2.isFailure = true) := by
  constructor
  · cases hb : ginv.hasBoto3
    · right; simp [ec2_group_facts_run, hb, Outcome.isFailure]
    · cases hreg : ginv.region
      · right; simp [ec2_group_facts_run, hb, hreg, Outcome.isFailure]
      · cases hapi : ginv.api (groupFilters ginv.params)
        · right
          simp [ec2_group_facts_run, hb, hreg, hapi, Outcome.isFailure]
        · left
          refine ⟨_, rfl, ?_⟩
          simp [ec2_group_facts_run, hb, hreg, hapi]
  · cases hb : ainv.hasBoto
    · right; simp [ec2_asg_facts_run, hb, Outcome.isFailure]
    · cases hreg : ainv.region
      · right; simp [ec2_asg_facts_run, hb, hreg, Outcome.isFailure]
      · cases hc : ainv.connectOk
        · right; simp [ec2_asg_facts_run, hb, hreg, hc, Outcome.isFailure]
        · cases hapi : ainv.api (normalizeNames ainv.namesParam)
          · right
            simp [ec2_asg_facts_run, hb, hreg, hc, hapi, Outcome.isFailure]
          · left
            refine ⟨_, rfl, ?_⟩
            simp [ec2_asg_facts_run, hb, hreg, hc, hapi]

/-- Counterexample to claim C2 as stated: with boto3 available but no
region configured, `ec2_group_facts` emits a failure whose message is
the module's own "region must be specified", although no SDK query
call was issued at all — so the module does not fail only when the SDK
raised, and this message is no SDK exception's message. -/
theorem fail_without_sdk_error_counterexample :
    (ec2_group_facts_run noRegionInvocation).2 =
      Outcome.failJson "region must be specified" [] ∧
    (ec2_group_facts_run noRegionInvocation).1 = [] :=
  ⟨rfl, rfl⟩

/-- Claim C2 amended: failures arising from the SDK query itself are a
direct pass-through — when `describe_security_groups` raises a
`ClientError`, `ec2_group_facts` fails with exactly the exception's
message (plus the snake-cased error response), and when
`get_all_groups` raises, `ec2_asg_facts` terminates with that
exception uncaught; but the modules can also fail before issuing any
query, e.g. with the module-generated "region must be specified" when
no region is configured. -/
theorem sdk_error_passthrough
    (ginv : GroupInvocation) (e : ClientError)
    (hgb : ginv.hasBoto3 = true) (hgr : ginv.region.isSome = true)
    (hge : ginv.api (groupFilters ginv.params) = Except.error e)
    (ainv : AsgInvocation) (e2 : String)
    (hab : ainv.hasBoto = true) (har : ainv.region.isSome = true)
    (hac : ainv.connectOk = Except.ok ())
    (hae : ainv.api (normalizeNames ainv.namesParam) = Except.error e2)
    (binv : GroupInvocation)
    (hbb : binv.hasBoto3 = true) (hbr : binv.region = none) :
    (ec2_group_facts_run ginv).2 =
      Outcome.failJson e.message (camel_dict_to_snake_dict e.response) ∧
    (ec2_asg_facts_run ainv).2 = Outcome.crash e2 ∧
    (ec2_group_facts_run binv).2 =
      Outcome.failJson "region must be specified" [] ∧
    (ec2_group_facts_run binv).1 = [] := by
  obtain ⟨r, hreg⟩ := Option.isSome_iff_exists.mp hgr
  obtain ⟨r2, hreg2⟩ := Option.isSome_iff_exists.mp har
  refine ⟨?_, ?_, ?_, ?_⟩
  · simp [ec2_group_facts_run, hgb, hreg, hge]
  · simp [ec2_asg_facts_run, hab, hreg2, hac, hae]
  · simp [ec2_group_facts_run, hbb, hbr]
  · simp [ec2_group_facts_run, hbb, hbr]

/-- Witness for the amended C2: concrete invocations with a raising
`describe_security_groups`, a raising `get_all_groups`, and a missing
region. -/
theorem sdk_error_passthrough_witness :
    (ec2_group_facts_run errorGroupInvocation).2 =
      Outcome.failJson "UnauthorizedOperation"
        (camel_dict_to_snake_dict [("Error", JsonVal.dictV [])]) ∧
    (ec2_asg_facts_run errorAsgInvocation).2 =
      Outcome.crash "BotoServerError: 403 Forbidden" ∧
    (ec2_group_facts_run noRegionInvocation).2 =
      Outcome.failJson "region must be specified" [] ∧
    (ec2_group_facts_run noRegionInvocation).1 = [] :=
  sdk_error_passthrough errorGroupInvocation
    { message := "UnauthorizedOperation",
      response := [("Error", JsonVal.dictV [])] }
    rfl rfl rfl
    errorAsgInvocation "BotoServerError: 403 Forbidden" rfl rfl rfl rfl
    noRegionInvocation rfl rfl

/-- Claim C4: the filter structure built by `ec2_group_facts` has
exactly one entry for each parameter supplied with a truthy value —
`name` under `group-name`, `description` under `description`, `vpc_id`
under `vpc-id`, `group_id` under `group-id`, each carrying that
parameter's value — and no entry for any parameter not supplied; with
no parameters the filter is empty; and the boto3 filter list passed to
the API is its entry-wise `Name`/`Values` image. -/
theorem group_filter_characterization (p : GroupParams) :
    ((buildGroupFilter p).countP (fun kv => kv.1 == "group-name") =
        (if truthyStr p.name then 1 else 0) ∧
      (buildGroupFilter p).lookup "group-name" =
        (if truthyStr p.name then p.name else none)) ∧
    ((buildGroupFilter p).countP (fun kv => kv.1 == "description") =
        (if truthyStr p.description then 1 else 0) ∧
      (buildGroupFilter p).lookup "description" =
        (if truthyStr p.description then p.description else none)) ∧
    ((buildGroupFilter p).countP (fun kv => kv.1 == "vpc-id") =
        (if truthyStr p.vpc_id then 1 else 0) ∧
      (buildGroupFilter p).lookup "vpc-id" =
        (if truthyStr p.vpc_id then p.vpc_id else none)) ∧
    ((buildGroupFilter p).countP (fun kv => kv.1 == "group-id") =
        (if truthyStr p.group_id then 1 else 0) ∧
      (buildGroupFilter p).lookup "group-id" =
        (if truthyStr p.group_id then p.group_id else none)) ∧
    (buildGroupFilter p).length =
      ((if truthyStr p.name then 1 else 0) +
        ((if truthyStr p.description then 1 else 0) +
          ((if truthyStr p.vpc_id then 1 else 0) +
            (if truthyStr p.group_id then 1 else 0)))) ∧
    buildGroupFilter
      { name := none, description := none, vpc_id := none,
        group_id := none } = [] ∧
    groupFilters p =
      (buildGroupFilter p).map
        (fun kv => { Name := kv.1, Values := [kv.2] }) := by
  refine ⟨⟨?_, ?_⟩, ⟨?_, ?_⟩, ⟨?_, ?_⟩, ⟨?_, ?_⟩, ?_, rfl, rfl⟩ <;>
    simp [buildGroupFilter, List.countP_append, List.lookup_append,
      countP_filterEntry_self, countP_filterEntry_other,
      lookup_filterEntry_self, lookup_filterEntry_other,
      length_filterEntry]

/-- Counterexample to claim C5 as stated: a successful `ec2_asg_facts`
run emits a record whose `availability_zones` value is a list, not a
scalar. -/
theorem record_value_not_scalar_counterexample :
    (ec2_asg_facts_run sampleAsgInvocation).2 =
      Outcome.exitJson "asgs" [buildAsgRecord sampleAsg] ∧
    (buildAsgRecord sampleAsg).lookup "availability_zones" =
      some (JsonVal.listV [JsonVal.strV "us-east-1a"]) ∧
    JsonVal.isScalar (JsonVal.listV [JsonVal.strV "us-east-1a"]) = false :=
  ⟨rfl, rfl, rfl⟩

/-- Claim C5 amended: every emitted record is a dictionary of key/value
pairs, but its values need not be scalars: `ec2_group_facts` renames
each record's keys to snake_case and passes the values through
unchanged (so nested lists and dictionaries are preserved), and
`ec2_asg_facts` emits list-valued fields such as
`availability_zones`. -/
theorem records_are_dicts_values_unchanged
    (d : Record) (a : AutoScalingGroup) :
    (camel_dict_to_snake_dict d).map Prod.fst =
      d.map (fun kv => camel_to_snake kv.1) ∧
    (camel_dict_to_snake_dict d).map Prod.snd = d.map Prod.snd ∧
    (buildAsgRecord a).lookup "availability_zones" =
      some (JsonVal.listV (a.availability_zones.map JsonVal.strV)) := by
  refine ⟨?_, ?_, ?_⟩
  · simp [camel_dict_to_snake_dict]
  · simp [camel_dict_to_snake_dict]
  · by_cases ht : tagsTruthy a.tags <;>
      by_cases hi : a.instances.isEmpty <;>
        simp [buildAsgRecord, ht, hi, List.lookup, List.lookup_append]

/-- Claim C7: filters are optional — when no filter parameter is
supplied, `ec2_group_facts` still issues its query with the empty
filter list and `ec2_asg_facts` with `none` as the names argument, and
each exits with the records the API yields. -/
theorem no_filters_still_queries
    (ginv : GroupInvocation) (res : DescribeSecurityGroupsResult)
    (hgp : ginv.params =
      { name := none, description := none, vpc_id := none,
        group_id := none })
    (hgb : ginv.hasBoto3 = true) (hgr : ginv.region.isSome = true)
    (hga : ginv.api (groupFilters ginv.params) = Except.ok res)
    (ainv : AsgInvocation) (asgs : List AutoScalingGroup)
    (hap : ainv.namesParam = none)
    (hab : ainv.hasBoto = true) (har : ainv.region.isSome = true)
    (hac : ainv.connectOk = Except.ok ())
    (haa : ainv.api (normalizeNames ainv.namesParam) = Except.ok asgs) :
    groupFilters ginv.params = [] ∧
    ec2_group_facts_run ginv =
      ([GroupApiCall.describeSecurityGroups []],
       Outcome.exitJson "security_groups"
         (res.SecurityGroups.map camel_dict_to_snake_dict)) ∧
    ec2_asg_facts_run ainv =
      ([AsgApiCall.getAllGroups none],
       Outcome.exitJson "asgs" (asgs.map buildAsgRecord)) := by
  obtain ⟨r, hreg⟩ := Option.isSome_iff_exists.mp hgr
  obtain ⟨r2, hreg2⟩ := Option.isSome_iff_exists.mp har
  have hfil : groupFilters ginv.params = [] := by
    rw [hgp]; rfl
  refine ⟨hfil, ?_, ?_⟩
  · rw [← hfil]
    simp [ec2_group_facts_run, hgb, hreg, hga]
  · have hn : normalizeNames ainv.namesParam = none := by
      rw [hap]; rfl
    rw [← hn]
    simp [ec2_asg_facts_run, hab, hreg2, hac, haa]

/-- Witness for C7: concrete invocations of both modules with no filter
parameters supplied and a succeeding API. -/
theorem no_filters_still_queries_witness :
    groupFilters sampleGroupInvocation.params = [] ∧
    ec2_group_facts_run sampleGroupInvocation =
      ([GroupApiCall.describeSecurityGroups []],
       Outcome.exitJson "security_groups"
         (sampleGroupResult.SecurityGroups.map camel_dict_to_snake_dict)) ∧
    ec2_asg_facts_run sampleAsgInvocation =
      ([AsgApiCall.getAllGroups none],
       Outcome.exitJson "asgs"
         ([sampleAsg].map buildAsgRecord)) :=
  no_filters_still_queries sampleGroupInvocation sampleGroupResult
    rfl rfl rfl rfl sampleAsgInvocation [sampleAsg] rfl rfl rfl rfl rfl

/-- Claim C8: a filter parameter supplied as a falsy value is treated
like an omitted one — `ec2_asg_facts` normalises an empty `names` list
to `none` before querying, and `ec2_group_facts` omits empty-string
parameters from the filter — so two invocations whose parameters agree
up to falsy-versus-absent build the same filter and issue the same
query. -/
theorem falsy_equals_absent
    (p q : GroupParams)
    (h1 : falsyOpt p.name = falsyOpt q.name)
    (h2 : falsyOpt p.description = falsyOpt q.description)
    (h3 : falsyOpt p.vpc_id = falsyOpt q.vpc_id)
    (h4 : falsyOpt p.group_id = falsyOpt q.group_id)
    (ns ms : Option (List String))
    (h5 : ns = none ∨ ns = some []) (h6 : ms = none ∨ ms = some []) :
    buildGroupFilter p = buildGroupFilter q ∧
    groupFilters p = groupFilters q ∧
    normalizeNames ns = none ∧
    normalizeNames ns = normalizeNames ms := by
  have hbf : buildGroupFilter p = buildGroupFilter q := by
    unfold buildGroupFilter
    rw [filterEntry_falsyOpt "group-name" p.name, h1,
      ← filterEntry_falsyOpt "group-name" q.name,
      filterEntry_falsyOpt "description" p.description, h2,
      ← filterEntry_falsyOpt "description" q.description,
      filterEntry_falsyOpt "vpc-id" p.vpc_id, h3,
      ← filterEntry_falsyOpt "vpc-id" q.vpc_id,
      filterEntry_falsyOpt "group-id" p.group_id, h4,
      ← filterEntry_falsyOpt "group-id" q.group_id]
  refine ⟨hbf, ?_, ?_, ?_⟩
  · unfold groupFilters
    rw [hbf]
  · rcases h5 with rfl | rfl <;> rfl
  · rcases h5 with rfl | rfl <;> rcases h6 with rfl | rfl <;> rfl

/-- Witness for C8: empty-string parameters against omitted ones, and
an empty `names` list against an omitted one, yield the same filter and
the same query. -/
theorem falsy_equals_absent_witness :
    buildGroupFilter
      { name := some "", description := none, vpc_id := some "",
        group_id := none } =
      buildGroupFilter
        { name := none, description := none, vpc_id := none,
          group_id := none } ∧
    groupFilters
      { name := some "", description := none, vpc_id := some "",
        group_id := none } =
      groupFilters
        { name := none, description := none, vpc_id := none,
          group_id := none } ∧
    normalizeNames (some []) = none ∧
    normalizeNames (some []) = normalizeNames none :=
  falsy_equals_absent
    { name := some "", description := none, vpc_id := some "",
      group_id := none }
    { name := none, description := none, vpc_id := none,
      group_id := none }
    rfl rfl rfl rfl (some []) none (Or.inr rfl) (Or.inl rfl)

/-- The thirteen keys every `ec2_asg_facts` record carries, in source
order. -/
def asgBaseKeys : List String :=
  ["name", "availability_zones", "default_cooldown", "desired_capacity",
   "health_check_period", "health_check_type", "launch_config_name",
   "load_balancers", "max_size", "min_size", "placement_group",
   "vpc_zone_identifier", "termination_policies"]

/-- Claim C10: the record `ec2_asg_facts` emits for a group has exactly
the thirteen base keys, plus a `tags` entry (mapping tag keys to tag
values) exactly when the group's tags attribute is present and
non-empty, plus an `instances` entry (the instance ids) exactly when
the instance list is non-empty. -/
theorem asg_record_keys (a : AutoScalingGroup) :
    (buildAsgRecord a).map Prod.fst =
      asgBaseKeys ++ (if tagsTruthy a.tags then ["tags"] else []) ++
        (if a.instances.isEmpty then [] else ["instances"]) ∧
    (buildAsgRecord a).lookup "tags" =
      (if tagsTruthy a.tags then
        some (JsonVal.dictV ((a.tags.getD []).map
          (fun t => (t.key, JsonVal.strV t.value))))
      else none) ∧
    (buildAsgRecord a).lookup "instances" =
      (if a.instances.isEmpty then none
       else some (JsonVal.listV (a.instances.map
         (fun i => JsonVal.strV i.instance_id)))) := by
  by_cases ht : tagsTruthy a.tags <;>
    by_cases hi : a.instances.isEmpty <;>
      simp [buildAsgRecord, asgBaseKeys, ht, hi, List.lookup,
        List.lookup_append]

end AnsibleAws
